import Mathlib

/-!
# Strategy Signal Aggregation & Backtesting Engine — verification

Shallow embedding of the core of the `multimodal-trading-bot` repository:
the strategy signal pipeline (`src/strategies/base_strategy.py`,
`src/strategies/futures_strategy.py`, `src/strategies/options_strategy.py`,
`src/models/sentiment_analysis.py`, `src/models/chatgpt_integration.py`,
`src/data/weather_data_fetcher.py`, `src/data/news_data_fetcher.py`) and the
backtesting engine (`src/utils/backtest.py`).

Modelling conventions:
* Python floats are modelled as exact rationals (`ℚ`); decimal literals such
  as `0.4` denote the exact rational `2/5`.
* A Python dict field that may be absent is an `Option`; `d.get(k, v)` is
  `o.getD v`; sub-dicts indexed by string keys (`indicators`,
  `options_metrics`) are association lists queried with `List.lookup`.
* Network calls (the ChatGPT HTTP request, the weather and news fetches) and
  the body of the sentiment analyzer's `try` block are the only failure
  points; each is modelled by an explicit outcome parameter
  (`Except Unit _` or a `Bool` failure flag) threaded into the function that
  performs the call, exactly where the corresponding `try/except` sits in
  the source.
* `datetime.now()` is modelled by an explicit `now : ℚ` parameter giving the
  wall-clock reading at the moment of the call.
* Leading underscores of Python method names are dropped (`_simulate_trade`
  becomes `Backtest.simulate_trade`, and so on); otherwise names follow the
  source.
-/

/-- `max(min(x, 1.0), -1.0)` — the clamp applied throughout the source. -/
def clamp (x : ℚ) : ℚ := max (min x 1) (-1)

/-- `src/strategies/base_strategy.py`: the normalized market-data dict.
Required keys are `symbol`, `price`, `timestamp`; everything else is
optional.  `indicators` and `optionsMetrics` model the string-keyed
sub-dicts; `averageVolume`, `averageVolatility` model the top-level
`average_volume` / `average_volatility` keys; `dataQuality` models
`metadata["data_quality"]`; `openPrice`..`closePrice` model the
`open`/`high`/`low`/`close` keys used by the price-action analyzer. -/
structure MarketData where
  symbol : Option String
  price : Option ℚ
  timestamp : Option ℚ
  openPrice : Option ℚ
  highPrice : Option ℚ
  lowPrice : Option ℚ
  closePrice : Option ℚ
  indicators : List (String × ℚ)
  averageVolume : Option ℚ
  averageVolatility : Option ℚ
  optionsMetrics : List (String × ℚ)
  dataQuality : Option ℚ
deriving DecidableEq

/-- Weather payload as consumed by `_analyze_weather_data`:
`weather_data.get("main", {}).get("temp")` and
`weather_data.get("weather", [{}])[0].get("description")`.
The empty dict returned by the fetcher on failure is `⟨none, none⟩`. -/
structure WeatherData where
  temp : Option ℚ
  description : Option String
deriving DecidableEq

/-- One article of the news payload; `article.get("sentiment", 0)`. -/
structure NewsArticle where
  sentiment : Option ℚ
deriving DecidableEq

/-- News payload as consumed by `_analyze_news_data`:
`news_data.get("articles", [])`.  The empty dict returned by the fetcher on
failure is `⟨[]⟩`. -/
structure NewsData where
  articles : List NewsArticle
deriving DecidableEq

/-- `WeatherDataFetcher.fetch_weather_data`
(`src/data/weather_data_fetcher.py`): the HTTP request either yields a
payload or raises `requests.RequestException`, which the method catches,
returning `{}`. -/
def WeatherDataFetcher.fetch_weather_data (outcome : Except Unit WeatherData) :
    WeatherData :=
  match outcome with
  | .ok w => w
  | .error _ => ⟨none, none⟩

/-- `NewsDataFetcher.fetch_news_data` (`src/data/news_data_fetcher.py`):
same shape as the weather fetcher; `{}` on `RequestException`. -/
def NewsDataFetcher.fetch_news_data (outcome : Except Unit NewsData) :
    NewsData :=
  match outcome with
  | .ok n => n
  | .error _ => ⟨[]⟩

/-- `ChatGPTIntegration.analyze_sentiment_async`
(`src/models/chatgpt_integration.py`): the HTTP call plus `_parse_sentiment`
either produce a numeric score (clamped to `[-1, 1]`; `0.0` when no score
is found, representable as `.ok 0`) or raise, in which case the surrounding
`try/except` returns `0.0`. -/
def ChatGPTIntegration.analyze_sentiment_async (outcome : Except Unit ℚ) : ℚ :=
  match outcome with
  | .ok v => clamp v
  | .error _ => 0

/-- `BaseStrategy._validate_market_data`: all of `symbol`, `price`,
`timestamp` present. -/
def BaseStrategy.validate_market_data (md : MarketData) : Bool :=
  md.symbol.isSome && md.price.isSome && md.timestamp.isSome

/-- `BaseStrategy._calculate_confidence`: `0.0` for an empty signal dict,
otherwise `1 - min(variance, 1)` where `variance` is the population
variance of the dict's values. -/
def BaseStrategy.calculate_confidence (signals : List (String × ℚ)) : ℚ :=
  if signals = [] then 0
  else
    let values := signals.map Prod.snd
    let avgSignal := values.sum / (values.length : ℚ)
    let varOfValues :=
      (values.map (fun x => (x - avgSignal) ^ 2)).sum / (values.length : ℚ)
    1 - min varOfValues 1

/-- `SentimentResult` (`src/models/sentiment_analysis.py`).  The `metadata`
dict `{technical_score, price_score}` is modelled as a pair. -/
structure SentimentResult where
  timestamp : ℚ
  symbol : String
  score : ℚ
  confidence : ℚ
  source : String
  metadata : Option (ℚ × ℚ)
deriving DecidableEq

/-- `SentimentAnalyzer._analyze_technical_sentiment`: RSI over/oversold
scoring (±0.5), then a volatility damping (`score *= 0.8`) when
`volatility / price > 0.02` and the price is positive.  Note: unlike the
strategy-level analyzers this helper does not clamp its return value. -/
def SentimentAnalyzer.analyze_technical_sentiment (md : MarketData) : ℚ :=
  let score : ℚ := 0
  let score :=
    match md.indicators.lookup "rsi" with
    | some rsi => if rsi > 70 then score - 0.5 else if rsi < 30 then score + 0.5 else score
    | none => score
  match md.indicators.lookup "volatility" with
  | some vol =>
      let avgPrice := md.price.getD 0
      if avgPrice > 0 then
        (if vol / avgPrice > 0.02 then score * 0.8 else score)
      else score
  | none => score

/-- `SentimentAnalyzer._analyze_price_action`: trend (±0.3 on close vs
open) plus the position of the close inside the high–low range, only when
all four of `open`, `close`, `high`, `low` are present.  Not clamped. -/
def SentimentAnalyzer.analyze_price_action (md : MarketData) : ℚ :=
  match md.openPrice, md.closePrice, md.highPrice, md.lowPrice with
  | some o, some c, some h, some l =>
      let score : ℚ := if c > o then 0.3 else -0.3
      let rangeSize := h - l
      if rangeSize > 0 then score + ((c - l) / rangeSize - 0.5) * 0.4 else score
  | _, _, _, _ => 0

/-- `SentimentAnalyzer._calculate_confidence`: base `0.5`, multiplied by
`metadata["data_quality"]` when present, plus `0.1 * len(indicators)/5`,
capped at `1.0`. -/
def SentimentAnalyzer.calculate_confidence (md : MarketData) : ℚ :=
  let confidence : ℚ := 0.5
  let confidence :=
    match md.dataQuality with
    | some q => confidence * q
    | none => confidence
  let confidence := confidence + 0.1 * (md.indicators.length : ℚ) / 5
  min 1 confidence

/-- `SentimentAnalyzer.analyze_sentiment`: combines the technical and
price-action scores as `0.6·t + 0.4·p`, clamped.  The whole body sits in a
`try` block whose `except` clause logs and **re-raises**; `analyzeFails`
models an exception arising inside the body (the method propagates it to
its caller instead of degrading to a neutral score). -/
def SentimentAnalyzer.analyze_sentiment (analyzeFails : Bool) (md : MarketData)
    (now : ℚ) : Except Unit SentimentResult :=
  if analyzeFails then .error ()
  else
    let technicalScore := SentimentAnalyzer.analyze_technical_sentiment md
    let priceScore := SentimentAnalyzer.analyze_price_action md
    let combinedScore := technicalScore * 0.6 + priceScore * 0.4
    .ok { timestamp := now
          symbol := md.symbol.getD ""
          score := clamp combinedScore
          confidence := SentimentAnalyzer.calculate_confidence md
          source := "combined"
          metadata := some (technicalScore, priceScore) }

/-- `"rain" in s.lower()` — substring test on the lowered description. -/
def containsRain (s : String) : Bool := (s.toLower.splitOn "rain").length > 1

/-- `_analyze_weather_data` (textually identical in both
`FuturesStrategy` and `OptionsStrategy`): −0.2 for sub-zero temperature,
−0.3 for a rainy description, clamped.  Python truthiness: a missing (or
zero) temperature and a missing (or empty) description skip their branch. -/
def analyzeWeatherData (w : WeatherData) : ℚ :=
  let score : ℚ := 0
  let score :=
    match w.temp with
    | some t => if t ≠ 0 ∧ t < 0 then score - 0.2 else score
    | none => score
  let score :=
    match w.description with
    | some d => if d ≠ "" ∧ containsRain d then score - 0.3 else score
    | none => score
  clamp score

/-- `FuturesStrategy._analyze_news_data`: sum of per-article sentiments,
averaged when any articles exist, clamped. -/
def analyzeNewsData (n : NewsData) : ℚ :=
  let score := (n.articles.map (fun a => a.sentiment.getD 0)).sum
  let score := if n.articles ≠ [] then score / (n.articles.length : ℚ) else score
  clamp score

/-- `FuturesStrategy._analyze_technical_indicators`: RSI ±0.4, MACD ±0.3,
volume amplification ×1.2 when `volume > average_volume * 1.5`
(`average_volume` defaulting to the volume itself), clamped. -/
def FuturesStrategy.analyze_technical_indicators (md : MarketData) : ℚ :=
  let score : ℚ := 0
  let score :=
    match md.indicators.lookup "rsi" with
    | some rsi => if rsi > 70 then score - 0.4 else if rsi < 30 then score + 0.4 else score
    | none => score
  let score :=
    match md.indicators.lookup "macd" with
    | some macd => if macd > 0 then score + 0.3 else score - 0.3
    | none => score
  let score :=
    match md.indicators.lookup "volume" with
    | some volume =>
        if volume > md.averageVolume.getD volume * 1.5 then score * 1.2 else score
    | none => score
  clamp score

/-- `OptionsStrategy._analyze_options_metrics`: IV percentile (±0.3, only
when an `iv` key is present; percentile defaulting to 50), put/call
thresholds (±0.4), open-interest amplification ×1.2, clamped. -/
def OptionsStrategy.analyze_options_metrics (md : MarketData) : ℚ :=
  let m := md.optionsMetrics
  let score : ℚ := 0
  let score :=
    match m.lookup "iv" with
    | some _ =>
        let ivPercentile := (m.lookup "iv_percentile").getD 50
        if ivPercentile > 80 then score - 0.3
        else if ivPercentile < 20 then score + 0.3
        else score
    | none => score
  let score :=
    match m.lookup "put_call_ratio" with
    | some pcr => if pcr > 1.5 then score - 0.4 else if pcr < 0.5 then score + 0.4 else score
    | none => score
  let score :=
    match m.lookup "open_interest" with
    | some oi =>
        if oi > (m.lookup "average_oi").getD oi * 1.5 then score * 1.2 else score
    | none => score
  clamp score

/-- `OptionsStrategy._analyze_technical_indicators`: RSI ±0.3, MACD ±0.2,
volatility damping ×0.8 when `volatility > average_volatility * 1.3`,
clamped. -/
def OptionsStrategy.analyze_technical_indicators (md : MarketData) : ℚ :=
  let score : ℚ := 0
  let score :=
    match md.indicators.lookup "rsi" with
    | some rsi => if rsi > 70 then score - 0.3 else if rsi < 30 then score + 0.3 else score
    | none => score
  let score :=
    match md.indicators.lookup "macd" with
    | some macd => if macd > 0 then score + 0.2 else score - 0.2
    | none => score
  let score :=
    match md.indicators.lookup "volatility" with
    | some vol =>
        if vol > md.averageVolatility.getD vol * 1.3 then score * 0.8 else score
    | none => score
  clamp score

/-- The `metadata` dict attached to a `StrategyResult`: the options
strategy's validation-failure flag `{"error": "Invalid market data"}`, the
futures success payload `{"signals": ..., "sentiment_confidence": ...}`, or
the options success payload `{"signals": ...}`. -/
inductive StrategyMetadata where
  | errMsg (msg : String)
  | futuresMeta (signals : List (String × ℚ)) (sentimentConfidence : ℚ)
  | optionsMeta (signals : List (String × ℚ))
deriving DecidableEq

/-- `StrategyResult` (`src/strategies/base_strategy.py`). -/
structure StrategyResult where
  timestamp : ℚ
  symbol : String
  signal : ℚ
  confidence : ℚ
  metadata : Option StrategyMetadata
deriving DecidableEq

/-- `FuturesStrategy.generate_signal`: validation guard (neutral result,
no metadata, on failure), then sentiment → chatgpt → weather → news →
technical fan-out, unweighted mean of the five scores, clamp, confidence.
The sentiment analyzer is the only provider whose exception escapes (it
re-raises and is not guarded here), hence the `Except` return. -/
def FuturesStrategy.generate_signal (sentimentFails : Bool)
    (chatOutcome : Except Unit ℚ) (weatherOutcome : Except Unit WeatherData)
    (newsOutcome : Except Unit NewsData) (md : MarketData) (now : ℚ) :
    Except Unit StrategyResult :=
  if !BaseStrategy.validate_market_data md then
    .ok { timestamp := now, symbol := md.symbol.getD "", signal := 0,
          confidence := 0, metadata := none }
  else
    match SentimentAnalyzer.analyze_sentiment sentimentFails md now with
    | .error e => .error e
    | .ok sentiment =>
        let chatgptScore := ChatGPTIntegration.analyze_sentiment_async chatOutcome
        let weatherScore :=
          analyzeWeatherData (WeatherDataFetcher.fetch_weather_data weatherOutcome)
        let newsScore := analyzeNewsData (NewsDataFetcher.fetch_news_data newsOutcome)
        let signals : List (String × ℚ) :=
          [("sentiment", sentiment.score),
           ("chatgpt", chatgptScore),
           ("technical", FuturesStrategy.analyze_technical_indicators md),
           ("weather", weatherScore),
           ("news", newsScore)]
        let signal := (signals.map Prod.snd).sum / (signals.length : ℚ)
        .ok { timestamp := now
              symbol := md.symbol.getD ""
              signal := clamp signal
              confidence := BaseStrategy.calculate_confidence signals
              metadata := some (.futuresMeta signals sentiment.confidence) }

/-- `OptionsStrategy.generate_signal`: validation guard (neutral result
with the `{"error": "Invalid market data"}` flag), then options metrics,
technical indicators and weather fan-out, unweighted mean of the three
scores, clamp, confidence.  Every external call it makes (the weather
fetch) absorbs its own failures, so the method itself is total. -/
def OptionsStrategy.generate_signal (weatherOutcome : Except Unit WeatherData)
    (md : MarketData) (now : ℚ) : StrategyResult :=
  if !BaseStrategy.validate_market_data md then
    { timestamp := now, symbol := md.symbol.getD "", signal := 0,
      confidence := 0, metadata := some (.errMsg "Invalid market data") }
  else
    let optionsScore := OptionsStrategy.analyze_options_metrics md
    let technicalScore := OptionsStrategy.analyze_technical_indicators md
    let weatherScore :=
      analyzeWeatherData (WeatherDataFetcher.fetch_weather_data weatherOutcome)
    let signals : List (String × ℚ) :=
      [("options", optionsScore),
       ("technical", technicalScore),
       ("weather", weatherScore)]
    let signal := (signals.map Prod.snd).sum / (signals.length : ℚ)
    { timestamp := now
      symbol := md.symbol.getD ""
      signal := clamp signal
      confidence := BaseStrategy.calculate_confidence signals
      metadata := some (.optionsMeta signals) }

/-- Trade direction of a simulated fill (`"hold"`, `"buy"`, `"sell"`). -/
inductive TradeAct where
  | hold
  | buy
  | sell
deriving DecidableEq

/-- The dict returned by `Backtest._simulate_trade`.  The hold branch's
dict carries no `slippage` key, hence the `Option`. -/
structure TradeResult where
  action : TradeAct
  size : ℚ
  price : ℚ
  slip : Option ℚ
deriving DecidableEq

/-- The resolved backtest configuration: `config.get("trade_size", 1.0)`,
`config.get("slippage", 0.001)`, `config.get("min_signal_threshold", 0.2)`.
A field holds the value the corresponding `get` resolves to. -/
structure BacktestConfig where
  trade_size : ℚ
  slippage : ℚ
  min_signal_threshold : ℚ
deriving DecidableEq

/-- The configuration all three `get` defaults produce (an empty config
dict): trade size 1.0, slippage 0.001, threshold 0.2. -/
def BacktestConfig.default : BacktestConfig := ⟨1, 0.001, 0.2⟩

/-- `Backtest._simulate_trade`: hold with size 0 at the market price when
`|signal| < min_signal_threshold`; otherwise buy (signal > 0) or sell at
the market price adjusted by slippage, with the configured trade size. -/
def Backtest.simulate_trade (cfg : BacktestConfig) (signal : StrategyResult)
    (marketPrice : ℚ) : TradeResult :=
  if |signal.signal| < cfg.min_signal_threshold then
    { action := .hold, size := 0, price := marketPrice, slip := none }
  else
    let action : TradeAct := if signal.signal > 0 then .buy else .sell
    { action := action
      size := cfg.trade_size
      price := marketPrice * (if action = .buy then 1 + cfg.slippage else 1 - cfg.slippage)
      slip := some cfg.slippage }

/-- `Backtest._calculate_profit_loss`:
`(market price − executed price) × size × (+1 buy / −1 sell)`, 0 on hold. -/
def Backtest.calculate_profit_loss (trade : TradeResult) (marketPrice : ℚ) : ℚ :=
  if trade.action = .hold then 0
  else (marketPrice - trade.price) * trade.size * (if trade.action = .buy then 1 else -1)

/-- One entry of `Backtest.results`, as assembled inside `Backtest.run`. -/
structure BTRecord where
  timestamp : ℚ
  symbol : String
  price : ℚ
  signal : ℚ
  confidence : ℚ
  trade_result : TradeResult
  profit_loss : ℚ
deriving DecidableEq

/-- The body of `Backtest.run`'s loop for one data point: generate the
signal, simulate the trade, compute profit/loss, assemble the record.
`none` models the `KeyError` the loop raises when the data point lacks
`timestamp`, `symbol` or `price`.  The strategy is passed as the function
`strat` from the data point (and implicitly the clock) to its result. -/
def Backtest.process_point (cfg : BacktestConfig)
    (strat : MarketData → StrategyResult) (dataPoint : MarketData) :
    Option BTRecord :=
  match dataPoint.timestamp, dataPoint.symbol, dataPoint.price with
  | some ts, some sym, some p =>
      let signal := strat dataPoint
      let tradeResult := Backtest.simulate_trade cfg signal p
      some { timestamp := ts
             symbol := sym
             price := p
             signal := signal.signal
             confidence := signal.confidence
             trade_result := tradeResult
             profit_loss := Backtest.calculate_profit_loss tradeResult p }
  | _, _, _ => none

/-- `Backtest.run`: folds the loop body over the historical data,
appending each record to the instance's `results` list (which is **not**
reset on entry — `results` is the accumulator's initial value) and
returning the whole list. -/
def Backtest.run (cfg : BacktestConfig) (strat : MarketData → StrategyResult)
    (results : List BTRecord) : List MarketData → Option (List BTRecord)
  | [] => some results
  | dataPoint :: rest =>
      match Backtest.process_point cfg strat dataPoint with
      | none => none
      | some r => Backtest.run cfg strat (results ++ [r]) rest

/-- `Backtest._is_winning_trade`: buys win above the executed price,
sells below it; holds never win.  `result["price"]` is the record's input
market price. -/
def Backtest.is_winning_trade (r : BTRecord) : Bool :=
  if r.trade_result.action = .hold then false
  else
    decide ((r.trade_result.action = .buy ∧ r.price > r.trade_result.price) ∨
            (r.trade_result.action = .sell ∧ r.price < r.trade_result.price))

/-- `Backtest._calculate_trade_return`:
`(market price − executed price)/executed price × (+1 buy / −1 sell)`,
0 on hold. -/
def Backtest.calculate_trade_return (r : BTRecord) : ℚ :=
  if r.trade_result.action = .hold then 0
  else (r.price - r.trade_result.price) / r.trade_result.price *
       (if r.trade_result.action = .buy then 1 else -1)

/-- `Backtest._calculate_average_return`: mean of the per-record returns
(0.0 on an empty results list). -/
def Backtest.calculate_average_return (results : List BTRecord) : ℚ :=
  if results = [] then 0
  else (results.map Backtest.calculate_trade_return).sum / (results.length : ℚ)

/-- `Backtest._calculate_sharpe_ratio`: mean return over the population
standard deviation of returns, 0 when the standard deviation is 0 (or the
results list is empty).  `variance ** 0.5` is a real square root, so this
one mirror lives in `ℝ` (every other metric stays in `ℚ`). -/
noncomputable def Backtest.calculate_sharpe (results : List BTRecord) : ℝ :=
  if results = [] then 0
  else
    let returns : List ℝ := results.map fun r => ((Backtest.calculate_trade_return r : ℚ) : ℝ)
    if returns = [] then 0
    else
      let avgReturn := returns.sum / (returns.length : ℝ)
      let stdDev := Real.sqrt ((returns.map fun r => (r - avgReturn) ^ 2).sum / (returns.length : ℝ))
      if stdDev > 0 then avgReturn / stdDev else 0

/-- The metrics dict built by `Backtest.calculate_metrics` (its
`sharpe_ratio` entry, computed by `_calculate_sharpe_ratio`, is modelled
separately as `Backtest.calculate_sharpe` because it leaves `ℚ`). -/
structure Metrics where
  total_trades : ℕ
  win_rate : ℚ
  avg_return : ℚ
  total_profit_loss : ℚ
deriving DecidableEq

/-- `Backtest.calculate_metrics`: `{}` (here `none`) on an empty results
list, otherwise the trade count, win rate, average return and total
profit/loss of the accumulated records. -/
def Backtest.calculate_metrics (results : List BTRecord) : Option Metrics :=
  if results = [] then none
  else
    let totalTrades := (results.filter fun r => decide (r.trade_result.action ≠ .hold)).length
    let winningTrades := (results.filter Backtest.is_winning_trade).length
    some { total_trades := totalTrades
           win_rate := if totalTrades > 0 then (winningTrades : ℚ) / (totalTrades : ℚ) else 0
           avg_return := Backtest.calculate_average_return results
           total_profit_loss := (results.map BTRecord.profit_loss).sum }

/-! ## Shared concrete inputs -/

/-- A minimal valid market-data record (symbol, price, timestamp present). -/
def md0 : MarketData :=
  { symbol := some "BTC", price := some 100, timestamp := some 1,
    openPrice := none, highPrice := none, lowPrice := none, closePrice := none,
    indicators := [], averageVolume := none, averageVolatility := none,
    optionsMetrics := [], dataQuality := none }

/-- A record missing its `price` key — it fails validation. -/
def mdNoPrice : MarketData :=
  { symbol := some "BTC", price := none, timestamp := some 1,
    openPrice := none, highPrice := none, lowPrice := none, closePrice := none,
    indicators := [], averageVolume := none, averageVolatility := none,
    optionsMetrics := [], dataQuality := none }

/-- A strategy result with signal 0.5 (the spec's simulator example). -/
def sigHalf : StrategyResult := ⟨0, "X", 0.5, 1, none⟩

/-! ## Claims -/

/-- Population variance, stated from the spec's words (mean of squared
deviations from the mean), for comparison with the code's confidence rule. -/
def popVariance (xs : List ℚ) : ℚ :=
  (xs.map (fun x => (x - xs.sum / (xs.length : ℚ)) ^ 2)).sum / (xs.length : ℚ)

/-- **C5** — For every SignalSet, the confidence computed by the strategy
equals `1 - min(population variance of the scores, 1)`, which always lies
in `[0, 1]`, and for the empty SignalSet the confidence is exactly `0.0`. -/
theorem C5_confidence_rule (signals : List (String × ℚ)) :
    BaseStrategy.calculate_confidence [] = 0 ∧
    0 ≤ BaseStrategy.calculate_confidence signals ∧
    BaseStrategy.calculate_confidence signals ≤ 1 ∧
    (signals ≠ [] →
      BaseStrategy.calculate_confidence signals =
        1 - min (popVariance (signals.map Prod.snd)) 1) := by
  refine ⟨rfl, ?_, ?_, ?_⟩
  · by_cases h : signals = []
    · simp [BaseStrategy.calculate_confidence, h]
    · have hvar : 0 ≤ (((signals.map Prod.snd).map
          (fun x => (x - (signals.map Prod.snd).sum / ((signals.map Prod.snd).length : ℚ)) ^ 2)).sum /
            ((signals.map Prod.snd).length : ℚ)) := by
        apply div_nonneg
        · apply List.sum_nonneg
          intro x hx
          obtain ⟨y, _, rfl⟩ := List.mem_map.mp hx
          positivity
        · positivity
      simp only [BaseStrategy.calculate_confidence, h, if_false]
      have : min (((signals.map Prod.snd).map
          (fun x => (x - (signals.map Prod.snd).sum / ((signals.map Prod.snd).length : ℚ)) ^ 2)).sum /
            ((signals.map Prod.snd).length : ℚ)) 1 ≤ 1 := min_le_right _ _
      linarith
  · by_cases h : signals = []
    · simp [BaseStrategy.calculate_confidence, h]
    · have hvar : 0 ≤ (((signals.map Prod.snd).map
          (fun x => (x - (signals.map Prod.snd).sum / ((signals.map Prod.snd).length : ℚ)) ^ 2)).sum /
            ((signals.map Prod.snd).length : ℚ)) := by
        apply div_nonneg
        · apply List.sum_nonneg
          intro x hx
          obtain ⟨y, _, rfl⟩ := List.mem_map.mp hx
          positivity
        · positivity
      simp only [BaseStrategy.calculate_confidence, h, if_false]
      have : 0 ≤ min (((signals.map Prod.snd).map
          (fun x => (x - (signals.map Prod.snd).sum / ((signals.map Prod.snd).length : ℚ)) ^ 2)).sum /
            ((signals.map Prod.snd).length : ℚ)) 1 := le_min hvar (by norm_num)
      linarith
  · intro h
    simp [BaseStrategy.calculate_confidence, h, popVariance]

/-- **C5 witness** — the confidence rule evaluated on the concrete signal
set `{a ↦ 1, b ↦ 0}` (variance `1/4`, confidence `3/4`). -/
theorem C5_confidence_rule_witness :
    BaseStrategy.calculate_confidence [("a", 1), ("b", 0)] =
      1 - min (popVariance [1, 0]) 1 :=
  (C5_confidence_rule [("a", 1), ("b", 0)]).2.2.2 (by decide)

/-- **C4** — The trade simulator returns hold with size 0 at the record
price below the threshold; otherwise buy (signal > 0) or sell at the
record price adjusted by slippage with the configured trade size; and in
particular signal 0.5, price 100, slippage 0.001 gives a buy at 100.1. -/
theorem C4_simulate_trade_rule (cfg : BacktestConfig) (s : StrategyResult) (p : ℚ) :
    (|s.signal| < cfg.min_signal_threshold →
      Backtest.simulate_trade cfg s p = ⟨.hold, 0, p, none⟩) ∧
    (¬ |s.signal| < cfg.min_signal_threshold → 0 < s.signal →
      Backtest.simulate_trade cfg s p =
        ⟨.buy, cfg.trade_size, p * (1 + cfg.slippage), some cfg.slippage⟩) ∧
    (¬ |s.signal| < cfg.min_signal_threshold → ¬ 0 < s.signal →
      Backtest.simulate_trade cfg s p =
        ⟨.sell, cfg.trade_size, p * (1 - cfg.slippage), some cfg.slippage⟩) ∧
    Backtest.simulate_trade BacktestConfig.default sigHalf 100 =
      ⟨.buy, 1, 100.1, some 0.001⟩ := by
  refine ⟨fun h => ?_, fun h hpos => ?_, fun h hneg => ?_,
    by norm_num [Backtest.simulate_trade, BacktestConfig.default, sigHalf, abs_of_pos]⟩
  · simp [Backtest.simulate_trade, h]
  · simp [Backtest.simulate_trade, if_neg h, hpos]
  · simp [Backtest.simulate_trade, if_neg h, hneg]

/-- **C4 witness** — the hold branch at signal 0, threshold 0.2. -/
theorem C4_simulate_trade_rule_witness :
    Backtest.simulate_trade BacktestConfig.default ⟨0, "X", 0, 0, none⟩ 50 =
      ⟨.hold, 0, 50, none⟩ :=
  (C4_simulate_trade_rule BacktestConfig.default ⟨0, "X", 0, 0, none⟩ 50).1
    (by norm_num [BacktestConfig.default])

/-- **C7** — For every simulated trade, `action = hold` holds if and only
if `size = 0` and `|signal| < min_signal_threshold`, for every configured
trade size and threshold. -/
theorem C7_hold_iff (cfg : BacktestConfig) (s : StrategyResult) (p : ℚ) :
    (Backtest.simulate_trade cfg s p).action = TradeAct.hold ↔
      ((Backtest.simulate_trade cfg s p).size = 0 ∧
        |s.signal| < cfg.min_signal_threshold) := by
  by_cases h : |s.signal| < cfg.min_signal_threshold
  · simp [Backtest.simulate_trade, h]
  · simp only [Backtest.simulate_trade, if_neg h]
    constructor
    · intro hact
      by_cases hpos : s.signal > 0 <;> simp [hpos] at hact
    · rintro ⟨-, habs⟩
      exact absurd habs h

/-- `clamp` is the identity on `[-1, 1]`. -/
theorem clamp_of_mem {x : ℚ} (h1 : -1 ≤ x) (h2 : x ≤ 1) : clamp x = x := by
  unfold clamp
  rw [min_eq_left h2, max_eq_left h1]

/-- **C1 counterexample** — on a valid record, a raising sentiment
provider makes `FuturesStrategy.generate_signal` itself raise: the claim
"no exception ever propagates out of generate_signal" is false. -/
theorem C1_counterexample :
    FuturesStrategy.generate_signal true (.ok 0) (.error ()) (.error ()) md0 0 =
      .error () := by
  rfl

/-- **C1 (amended)** — Exceptions in the ChatGPT call, the weather fetch
and the news fetch are caught and contribute `0.0` (directly, or through
the empty payload whose score is `0.0`); but an exception inside
`SentimentAnalyzer.analyze_sentiment` is re-raised and propagates out of
`FuturesStrategy.generate_signal` whenever the record passes validation.
When the sentiment analyzer does not raise, `generate_signal` never
raises. -/
theorem C1_provider_failure_semantics (chatOutcome : Except Unit ℚ)
    (weatherOutcome : Except Unit WeatherData) (newsOutcome : Except Unit NewsData)
    (md : MarketData) (now : ℚ) :
    (∃ r, FuturesStrategy.generate_signal false chatOutcome weatherOutcome
        newsOutcome md now = .ok r) ∧
    (BaseStrategy.validate_market_data md = true →
      FuturesStrategy.generate_signal true chatOutcome weatherOutcome
        newsOutcome md now = .error ()) ∧
    ChatGPTIntegration.analyze_sentiment_async (.error ()) = 0 ∧
    analyzeWeatherData (WeatherDataFetcher.fetch_weather_data (.error ())) = 0 ∧
    analyzeNewsData (NewsDataFetcher.fetch_news_data (.error ())) = 0 := by
  refine ⟨?_, fun hvalid => ?_, rfl, ?_, ?_⟩
  · cases hv : BaseStrategy.validate_market_data md
    · simp [FuturesStrategy.generate_signal, hv]
    · simp [FuturesStrategy.generate_signal, hv, SentimentAnalyzer.analyze_sentiment]
  · simp [FuturesStrategy.generate_signal, hvalid, SentimentAnalyzer.analyze_sentiment]
  · have h0 : clamp 0 = 0 := clamp_of_mem (by norm_num) (by norm_num)
    simp [analyzeWeatherData, WeatherDataFetcher.fetch_weather_data, h0]
  · have h0 : clamp 0 = 0 := clamp_of_mem (by norm_num) (by norm_num)
    simp [analyzeNewsData, NewsDataFetcher.fetch_news_data, h0]

/-- **C1 witness** — the propagation branch of the amended claim at a
concrete valid record. -/
theorem C1_provider_failure_semantics_witness :
    FuturesStrategy.generate_signal true (.ok 0) (.ok ⟨none, none⟩) (.ok ⟨[]⟩)
      md0 0 = .error () :=
  (C1_provider_failure_semantics (.ok 0) (.ok ⟨none, none⟩) (.ok ⟨[]⟩) md0 0).2.1 rfl

/-- **C2** — For every record passing validation, both strategy variants
return a signal equal to the arithmetic mean of the provider scores echoed
in the SignalSet metadata (sum of scores over their count), clamped to
`[-1, 1]`. -/
theorem C2_signal_is_clamped_mean (chatOutcome : Except Unit ℚ)
    (weatherOutcome : Except Unit WeatherData) (newsOutcome : Except Unit NewsData)
    (md : MarketData) (now : ℚ)
    (hvalid : BaseStrategy.validate_market_data md = true) :
    (∀ r signals sentConf,
      FuturesStrategy.generate_signal false chatOutcome weatherOutcome newsOutcome
        md now = .ok r →
      r.metadata = some (.futuresMeta signals sentConf) →
      r.signal = clamp ((signals.map Prod.snd).sum / (signals.length : ℚ))) ∧
    (∀ signals,
      (OptionsStrategy.generate_signal weatherOutcome md now).metadata =
        some (.optionsMeta signals) →
      (OptionsStrategy.generate_signal weatherOutcome md now).signal =
        clamp ((signals.map Prod.snd).sum / (signals.length : ℚ))) := by
  constructor
  · intro r signals sentConf hr hm
    simp only [FuturesStrategy.generate_signal, hvalid, Bool.not_true,
      Bool.false_eq_true, if_false, SentimentAnalyzer.analyze_sentiment,
      Except.ok.injEq] at hr
    subst hr
    simp only [Option.some.injEq, StrategyMetadata.futuresMeta.injEq] at hm
    obtain ⟨h1, -⟩ := hm
    subst h1
    simp
  · intro signals hm
    simp only [OptionsStrategy.generate_signal, hvalid, Bool.not_true,
      Bool.false_eq_true, if_false, Option.some.injEq,
      StrategyMetadata.optionsMeta.injEq] at hm ⊢
    subst hm
    simp

/-- **C2 witness** — the options variant on the minimal valid record
(all three provider scores `0`). -/
theorem C2_signal_is_clamped_mean_witness :
    (OptionsStrategy.generate_signal (.error ()) md0 0).signal =
      clamp ((([("options", (0 : ℚ)), ("technical", 0), ("weather", 0)].map
        Prod.snd).sum) / 3) :=
  (C2_signal_is_clamped_mean (.ok 0) (.error ()) (.error ()) md0 0 rfl).2
    [("options", 0), ("technical", 0), ("weather", 0)]
    (by
      have h0 : clamp 0 = 0 := clamp_of_mem (by norm_num) (by norm_num)
      simp [OptionsStrategy.generate_signal, md0,
        OptionsStrategy.analyze_options_metrics,
        OptionsStrategy.analyze_technical_indicators, analyzeWeatherData,
        WeatherDataFetcher.fetch_weather_data, BaseStrategy.validate_market_data, h0])

/-- **C3 counterexample** — on a record missing `price`, the futures
variant returns `metadata = none`: no metadata flag identifies the
validation failure, so the claim as stated is false for the futures
variant. -/
theorem C3_counterexample :
    FuturesStrategy.generate_signal false (.ok 0) (.error ()) (.error ())
      mdNoPrice 0 =
      .ok { timestamp := 0, symbol := "BTC", signal := 0, confidence := 0,
            metadata := none } := by
  rfl

/-- **C3 (amended)** — On a record failing validation neither variant
raises and both return signal `0.0` and confidence `0.0`; the options
variant attaches the metadata flag `{"error": "Invalid market data"}`,
but the futures variant returns no metadata at all. -/
theorem C3_invalid_record_neutral (sentimentFails : Bool)
    (chatOutcome : Except Unit ℚ) (weatherOutcome : Except Unit WeatherData)
    (newsOutcome : Except Unit NewsData) (md : MarketData) (now : ℚ)
    (hinvalid : BaseStrategy.validate_market_data md = false) :
    FuturesStrategy.generate_signal sentimentFails chatOutcome weatherOutcome
        newsOutcome md now =
      .ok { timestamp := now, symbol := md.symbol.getD "", signal := 0,
            confidence := 0, metadata := none } ∧
    OptionsStrategy.generate_signal weatherOutcome md now =
      { timestamp := now, symbol := md.symbol.getD "", signal := 0,
        confidence := 0, metadata := some (.errMsg "Invalid market data") } := by
  constructor
  · simp [FuturesStrategy.generate_signal, hinvalid]
  · simp [OptionsStrategy.generate_signal, hinvalid]

/-- **C3 witness** — the options variant's flagged neutral result on the
concrete record missing `price`. -/
theorem C3_invalid_record_neutral_witness :
    OptionsStrategy.generate_signal (.error ()) mdNoPrice 0 =
      { timestamp := 0, symbol := "BTC", signal := 0, confidence := 0,
        metadata := some (.errMsg "Invalid market data") } :=
  (C3_invalid_record_neutral false (.ok 0) (.error ()) (.error ()) mdNoPrice 0 rfl).2

/-- The fields of a `StrategyResult` other than the wall-clock timestamp. -/
def stripTime (r : StrategyResult) : String × ℚ × ℚ × Option StrategyMetadata :=
  (r.symbol, r.signal, r.confidence, r.metadata)

/-- **C8 counterexample** — two calls on the identical record with
identical (deterministic) provider outcomes do **not** yield identical
StrategyResults: each call stamps its own `datetime.now()`, so the
timestamps differ. -/
theorem C8_counterexample :
    OptionsStrategy.generate_signal (.error ()) md0 0 ≠
      OptionsStrategy.generate_signal (.error ()) md0 1 := by
  intro h
  have := congrArg StrategyResult.timestamp h
  simp [OptionsStrategy.generate_signal, md0, BaseStrategy.validate_market_data] at this

/-- **C8 (amended)** — Two calls of `generate_signal` on the identical
record with identical deterministic provider outcomes agree on symbol,
signal, confidence and metadata; only the wall-clock timestamp differs
between the two results. -/
theorem C8_deterministic_up_to_timestamp (sentimentFails : Bool)
    (chatOutcome : Except Unit ℚ) (weatherOutcome : Except Unit WeatherData)
    (newsOutcome : Except Unit NewsData) (md : MarketData) (now1 now2 : ℚ) :
    (FuturesStrategy.generate_signal sentimentFails chatOutcome weatherOutcome
        newsOutcome md now1).map stripTime =
      (FuturesStrategy.generate_signal sentimentFails chatOutcome weatherOutcome
        newsOutcome md now2).map stripTime ∧
    stripTime (OptionsStrategy.generate_signal weatherOutcome md now1) =
      stripTime (OptionsStrategy.generate_signal weatherOutcome md now2) := by
  constructor
  · cases hv : BaseStrategy.validate_market_data md <;>
      cases sentimentFails <;>
      simp [FuturesStrategy.generate_signal, hv,
        SentimentAnalyzer.analyze_sentiment, stripTime, Except.map]
  · cases hv : BaseStrategy.validate_market_data md <;>
      simp [OptionsStrategy.generate_signal, hv, stripTime]

/-- On an all-hold results list every per-record return is 0, so the
standard deviation guard makes `_calculate_sharpe_ratio` return 0. -/
theorem Backtest.sharpe_all_hold (results : List BTRecord)
    (h : ∀ r ∈ results, r.trade_result.action = TradeAct.hold) :
    Backtest.calculate_sharpe results = 0 := by
  unfold Backtest.calculate_sharpe
  by_cases hnil : results = []
  · simp [hnil]
  · have hrep : results.map (fun r => ((Backtest.calculate_trade_return r : ℚ) : ℝ)) =
        List.replicate results.length (0 : ℝ) := by
      rw [List.eq_replicate_iff]
      refine ⟨by simp, ?_⟩
      intro x hx
      obtain ⟨r, hr, rfl⟩ := List.mem_map.mp hx
      simp [Backtest.calculate_trade_return, h r hr]
    rw [if_neg hnil, hrep]
    have hlen : results.length ≠ 0 := fun hc => hnil (List.length_eq_zero.mp hc)
    simp [List.replicate_eq_nil_iff, hlen, List.sum_replicate]

/-- **C6** — Over every non-empty results sequence the metrics hold
`total_trades` = count of non-hold records and `win_rate` =
winning trades / total trades (0 when there are no trades), a winner being
a buy whose reference price exceeds the executed price or a sell whose
reference price is below it; over an all-hold sequence `win_rate = 0`,
`total_trades = 0` and the Sharpe value is 0. -/
theorem C6_metrics_rule (results : List BTRecord) (hne : results ≠ []) :
    ∃ m, Backtest.calculate_metrics results = some m ∧
      m.total_trades =
        (results.filter fun r => decide (r.trade_result.action ≠ TradeAct.hold)).length ∧
      m.win_rate =
        (if m.total_trades = 0 then 0 else
          ((results.filter Backtest.is_winning_trade).length : ℚ) / (m.total_trades : ℚ)) ∧
      ((∀ r ∈ results, r.trade_result.action = TradeAct.hold) →
        m.total_trades = 0 ∧ m.win_rate = 0 ∧ Backtest.calculate_sharpe results = 0) := by
  unfold Backtest.calculate_metrics
  rw [if_neg hne]
  refine ⟨_, rfl, rfl, ?_, ?_⟩
  · show (if _ > 0 then _ else _) = _
    by_cases ht : (results.filter fun r => decide (r.trade_result.action ≠ TradeAct.hold)).length = 0
    · have hlt : ¬ (results.filter fun r =>
          decide (r.trade_result.action ≠ TradeAct.hold)).length > 0 := by omega
      rw [if_pos ht, if_neg hlt]
    · rw [if_neg ht, if_pos (Nat.pos_of_ne_zero ht)]
  · intro hall
    have htot : (results.filter fun r => decide (r.trade_result.action ≠ TradeAct.hold)) = [] := by
      rw [List.filter_eq_nil_iff]
      intro a ha
      simp [hall a ha]
    have h0 : (results.filter fun r =>
        decide (r.trade_result.action ≠ TradeAct.hold)).length = 0 := by
      rw [htot]
      rfl
    refine ⟨h0, ?_, Backtest.sharpe_all_hold results hall⟩
    show (if _ > 0 then _ else _) = _
    rw [h0]
    simp

/-- A concrete hold record (signal 0 on a price of 100). -/
def holdRec : BTRecord := ⟨1, "BTC", 100, 0, 0, ⟨.hold, 0, 100, none⟩, 0⟩

/-- **C6 witness** — the metrics rule on the one-element all-hold list. -/
theorem C6_metrics_rule_witness :
    ∃ m, Backtest.calculate_metrics [holdRec] = some m ∧
      m.total_trades =
        ([holdRec].filter fun r => decide (r.trade_result.action ≠ TradeAct.hold)).length ∧
      m.win_rate =
        (if m.total_trades = 0 then 0 else
          (([holdRec].filter Backtest.is_winning_trade).length : ℚ) / (m.total_trades : ℚ)) ∧
      ((∀ r ∈ [holdRec], r.trade_result.action = TradeAct.hold) →
        m.total_trades = 0 ∧ m.win_rate = 0 ∧ Backtest.calculate_sharpe [holdRec] = 0) :=
  C6_metrics_rule [holdRec] (by simp)

/-- **C10** — `run` never clears the instance's `results`: started on an
instance already holding `results0`, a run over `data` (whose points all
carry the three required keys) returns `results0` unchanged as a prefix
followed by exactly one new record per input data point. -/
theorem C10_run_appends (cfg : BacktestConfig) (strat : MarketData → StrategyResult)
    (results0 : List BTRecord) (data : List MarketData)
    (hvalid : ∀ dp ∈ data, dp.timestamp.isSome ∧ dp.symbol.isSome ∧ dp.price.isSome) :
    ∃ out, Backtest.run cfg strat results0 data = some out ∧
      out.take results0.length = results0 ∧
      out.length = results0.length + data.length := by
  induction data generalizing results0 with
  | nil => exact ⟨results0, rfl, by simp, by simp⟩
  | cons dp rest ih =>
    obtain ⟨hts, hsym, hp⟩ := hvalid dp (List.mem_cons_self dp rest)
    obtain ⟨ts, hts'⟩ := Option.isSome_iff_exists.mp hts
    obtain ⟨sym, hsym'⟩ := Option.isSome_iff_exists.mp hsym
    obtain ⟨p, hp'⟩ := Option.isSome_iff_exists.mp hp
    obtain ⟨r, hstep⟩ : ∃ r, Backtest.process_point cfg strat dp = some r := by
      simp only [Backtest.process_point, hts', hsym', hp']
      exact ⟨_, rfl⟩
    obtain ⟨out, hrun, htake, hlen⟩ :=
      ih (results0 ++ [r]) (fun q hq => hvalid q (List.mem_cons_of_mem dp hq))
    refine ⟨out, ?_, ?_, ?_⟩
    · simp only [Backtest.run, hstep]
      exact hrun
    · have h1 : out.take (results0 ++ [r]).length = results0 ++ [r] := htake
      have h2 : out.take results0.length =
          (out.take (results0 ++ [r]).length).take results0.length := by
        rw [List.take_take]
        congr 1
        simp
      rw [h2, h1, List.take_left]
    · rw [hlen]
      simp
      omega

/-- **C10 witness** — a run over one valid data point on an instance
already holding one record. -/
theorem C10_run_appends_witness :
    ∃ out, Backtest.run BacktestConfig.default (fun _ => sigHalf) [holdRec] [md0] =
        some out ∧
      out.take [holdRec].length = [holdRec] ∧
      out.length = [holdRec].length + [md0].length :=
  C10_run_appends BacktestConfig.default (fun _ => sigHalf) [holdRec] [md0]
    (by
      intro dp hdp
      simp only [List.mem_singleton] at hdp
      subst hdp
      simp [md0])

/-- `_simulate_trade`, hold branch. -/
theorem Backtest.simulate_trade_hold (cfg : BacktestConfig) (s : StrategyResult) (p : ℚ)
    (h : |s.signal| < cfg.min_signal_threshold) :
    Backtest.simulate_trade cfg s p = ⟨.hold, 0, p, none⟩ := by
  simp [Backtest.simulate_trade, h]

/-- `_simulate_trade`, buy branch. -/
theorem Backtest.simulate_trade_buy (cfg : BacktestConfig) (s : StrategyResult) (p : ℚ)
    (h : ¬ |s.signal| < cfg.min_signal_threshold) (hs : 0 < s.signal) :
    Backtest.simulate_trade cfg s p =
      ⟨.buy, cfg.trade_size, p * (1 + cfg.slippage), some cfg.slippage⟩ := by
  simp [Backtest.simulate_trade, if_neg h, hs]

/-- `_simulate_trade`, sell branch. -/
theorem Backtest.simulate_trade_sell (cfg : BacktestConfig) (s : StrategyResult) (p : ℚ)
    (h : ¬ |s.signal| < cfg.min_signal_threshold) (hs : ¬ 0 < s.signal) :
    Backtest.simulate_trade cfg s p =
      ⟨.sell, cfg.trade_size, p * (1 - cfg.slippage), some cfg.slippage⟩ := by
  simp [Backtest.simulate_trade, if_neg h, hs]

/-- With positive slippage, positive price and positive trade size, a
non-hold record produced by the loop body loses money and is not a
winning trade: the reference price used by both `_calculate_profit_loss`
and `_is_winning_trade` is the same record's input price, which slippage
has already moved against the trade. -/
theorem Backtest.process_point_negative (cfg : BacktestConfig)
    (strat : MarketData → StrategyResult) (dp : MarketData) (r : BTRecord)
    (hslip : 0 < cfg.slippage) (hsize : 0 < cfg.trade_size)
    (hpos : ∀ p, dp.price = some p → 0 < p)
    (hstep : Backtest.process_point cfg strat dp = some r) :
    r.trade_result.action ≠ TradeAct.hold →
      r.profit_loss < 0 ∧ Backtest.is_winning_trade r = false := by
  intro hact
  cases hts : dp.timestamp with
  | none => simp [Backtest.process_point, hts] at hstep
  | some ts =>
  cases hsym : dp.symbol with
  | none => simp [Backtest.process_point, hts, hsym] at hstep
  | some sym =>
  cases hp : dp.price with
  | none => simp [Backtest.process_point, hts, hsym, hp] at hstep
  | some p =>
  have hp0 : 0 < p := hpos p hp
  simp only [Backtest.process_point, hts, hsym, hp, Option.some.injEq] at hstep
  subst hstep
  by_cases hth : |(strat dp).signal| < cfg.min_signal_threshold
  · exact absurd (by simp [Backtest.simulate_trade_hold cfg (strat dp) p hth]) hact
  · by_cases hsig : 0 < (strat dp).signal
    · have hsim := Backtest.simulate_trade_buy cfg (strat dp) p hth hsig
      have hkey : 0 < p * cfg.slippage * cfg.trade_size :=
        mul_pos (mul_pos hp0 hslip) hsize
      have hlt : p < p * (1 + cfg.slippage) := by nlinarith [mul_pos hp0 hslip]
      refine ⟨?_, ?_⟩
      · simp [hsim, Backtest.calculate_profit_loss]
        nlinarith [hkey]
      · simp [hsim, Backtest.is_winning_trade, lt_asymm hlt]
    · have hsim := Backtest.simulate_trade_sell cfg (strat dp) p hth hsig
      have hkey : 0 < p * cfg.slippage * cfg.trade_size :=
        mul_pos (mul_pos hp0 hslip) hsize
      have hlt : p * (1 - cfg.slippage) < p := by nlinarith [mul_pos hp0 hslip]
      refine ⟨?_, ?_⟩
      · simp [hsim, Backtest.calculate_profit_loss]
        nlinarith [hkey]
      · simp [hsim, Backtest.is_winning_trade, lt_asymm hlt]

/-- A property established per data point holds of every record a run
returns (the accumulator's records included). -/
theorem Backtest.run_forall (cfg : BacktestConfig) (strat : MarketData → StrategyResult)
    (P : BTRecord → Prop) :
    ∀ (data : List MarketData) (acc out : List BTRecord),
      Backtest.run cfg strat acc data = some out →
      (∀ r ∈ acc, P r) →
      (∀ dp ∈ data, ∀ r, Backtest.process_point cfg strat dp = some r → P r) →
      ∀ r ∈ out, P r := by
  intro data
  induction data with
  | nil =>
      intro acc out hrun hacc _
      simp only [Backtest.run, Option.some.injEq] at hrun
      subst hrun
      exact hacc
  | cons dp rest ih =>
      intro acc out hrun hacc hpt
      simp only [Backtest.run] at hrun
      cases hpp : Backtest.process_point cfg strat dp with
      | none => rw [hpp] at hrun; exact absurd hrun (by simp)
      | some r' =>
          rw [hpp] at hrun
          refine ih (acc ++ [r']) out hrun ?_
            (fun q hq => hpt q (List.mem_cons_of_mem dp hq))
          intro x hx
          rcases List.mem_append.mp hx with hx | hx
          · exact hacc x hx
          · rw [List.mem_singleton.mp hx]
            exact hpt dp (List.mem_cons_self dp rest) r' hpp

/-- **C9** — In every run with positive slippage, positive record prices
and positive trade size, every non-hold record has a negative profit/loss
and is never a winning trade, so the run's `win_rate` is 0. -/
theorem C9_positive_slippage_no_wins (cfg : BacktestConfig)
    (strat : MarketData → StrategyResult) (data : List MarketData) (out : List BTRecord)
    (hslip : 0 < cfg.slippage) (hsize : 0 < cfg.trade_size)
    (hprice : ∀ dp ∈ data, ∀ p, dp.price = some p → 0 < p)
    (hrun : Backtest.run cfg strat [] data = some out) :
    (∀ r ∈ out, r.trade_result.action ≠ TradeAct.hold →
        r.profit_loss < 0 ∧ Backtest.is_winning_trade r = false) ∧
    (out ≠ [] → ∃ m, Backtest.calculate_metrics out = some m ∧ m.win_rate = 0) := by
  have hall : ∀ r ∈ out, r.trade_result.action ≠ TradeAct.hold →
      r.profit_loss < 0 ∧ Backtest.is_winning_trade r = false := by
    refine Backtest.run_forall cfg strat _ data [] out hrun (by simp) ?_
    intro dp hdp r hr
    exact Backtest.process_point_negative cfg strat dp r hslip hsize (hprice dp hdp) hr
  refine ⟨hall, fun hne => ?_⟩
  have hwin : ∀ r ∈ out, Backtest.is_winning_trade r = false := by
    intro r hr
    by_cases hh : r.trade_result.action = TradeAct.hold
    · simp [Backtest.is_winning_trade, hh]
    · exact (hall r hr hh).2
  have hfil : out.filter Backtest.is_winning_trade = [] := by
    rw [List.filter_eq_nil_iff]
    intro a ha
    simp [hwin a ha]
  unfold Backtest.calculate_metrics
  rw [if_neg hne]
  refine ⟨_, rfl, ?_⟩
  show (if _ > 0 then _ else _) = _
  rw [hfil]
  by_cases ht : (out.filter fun r => decide (r.trade_result.action ≠ TradeAct.hold)).length > 0
  · rw [if_pos ht]
    simp
  · rw [if_neg ht]

/-- The record the default configuration produces for `md0` under a
constant 0.5 signal: a buy of size 1 filled at 100.1, losing 0.1. -/
def buyRec : BTRecord := ⟨1, "BTC", 100, 0.5, 1, ⟨.buy, 1, 100.1, some 0.001⟩, -0.1⟩

/-- **C9 witness** — the one-point run that buys at 100.1 against a
reference price of 100. -/
theorem C9_positive_slippage_no_wins_witness :
    (∀ r ∈ [buyRec], r.trade_result.action ≠ TradeAct.hold →
        r.profit_loss < 0 ∧ Backtest.is_winning_trade r = false) ∧
    ([buyRec] ≠ [] →
      ∃ m, Backtest.calculate_metrics [buyRec] = some m ∧ m.win_rate = 0) :=
  C9_positive_slippage_no_wins BacktestConfig.default (fun _ => sigHalf) [md0] [buyRec]
    (by norm_num [BacktestConfig.default]) (by norm_num [BacktestConfig.default])
    (by
      intro dp hdp p hp
      simp only [List.mem_singleton] at hdp
      subst hdp
      simp only [md0, Option.some.injEq] at hp
      subst hp
      norm_num)
    (by
      norm_num [Backtest.run, Backtest.process_point, md0, sigHalf,
        BacktestConfig.default, Backtest.simulate_trade,
        Backtest.calculate_profit_loss, buyRec, abs_of_pos]
      decide)
